import Mathlib

/-!
Shallow embedding of the Wind Turbine Performance Simulation Tool
(`src/app.py`) over the reals, together with theorems settling the
specification claims about its core simulation functions.
-/

namespace WindTurbine

noncomputable section

/-- Embeds `calculate_power_output` (app.py lines 75-82):
`swept_area = np.pi * blade_radius ** 2`;
`power = 0.5 * air_density * swept_area * power_coefficient * (wind_speed ** 3)`. -/
def calculate_power_output (wind_speed air_density blade_radius power_coefficient : ℝ) : ℝ :=
  let swept_area := Real.pi * blade_radius ^ 2
  0.5 * air_density * swept_area * power_coefficient * wind_speed ^ 3

/-- A numpy floating value that may be NaN: `np.mean` of an empty array
yields NaN (with a runtime warning) rather than raising. -/
inductive NpValue where
  | nan : NpValue
  | val : ℝ → NpValue

/-- Embeds `np.mean(xs)`: NaN on an empty array, otherwise the arithmetic mean. -/
def npMean (xs : List ℝ) : NpValue :=
  if xs.length = 0 then NpValue.nan else NpValue.val (xs.sum / (xs.length : ℝ))

/-- Scalar division on numpy values: NaN propagates. -/
def npDivScalar : NpValue → ℝ → NpValue
  | NpValue.nan, _ => NpValue.nan
  | NpValue.val x, r => NpValue.val (x / r)

/-- Embeds `calculate_capacity_factor` (app.py lines 90-95):
`average_power = np.mean(power_outputs); return average_power / rated_power`.
There is no emptiness check in the source. -/
def calculate_capacity_factor (power_outputs : List ℝ) (rated_power : ℝ) : NpValue :=
  npDivScalar (npMean power_outputs) rated_power

/-- The record held in each preset dict entry of `get_preset_parameters`. -/
structure PresetParams where
  blade_radius : ℝ
  power_coefficient : ℝ
  rated_power : ℝ

/-- Embeds `get_preset_parameters` (app.py lines 97-116): a dict lookup with
`presets.get(preset_name, {})`; `none` models the empty-dict default. -/
def get_preset_parameters (preset_name : String) : Option PresetParams :=
  if preset_name = "Small (1 MW)" then some ⟨32.0, 0.42, 1000⟩
  else if preset_name = "Medium (2 MW)" then some ⟨45.0, 0.45, 2000⟩
  else if preset_name = "Large (5 MW)" then some ⟨63.0, 0.48, 5000⟩
  else none

/-- Embeds the body of the simulation loop (app.py lines 265-270):
zero outside the strict cut-in/cut-out range, otherwise the power-curve
value clamped to `rated_power_watts`. -/
def simulate_sample (air_density blade_radius power_coefficient rated_power_watts
    cut_in_speed cut_out_speed speed : ℝ) : ℝ :=
  if speed < cut_in_speed ∨ speed > cut_out_speed then 0
  else min (calculate_power_output speed air_density blade_radius power_coefficient)
    rated_power_watts

/-- Embeds the simulation loop of `main` (app.py lines 264-272): the loop
appends one output per wind speed in order, i.e. a map of `simulate_sample`. -/
def run_simulation (wind_speeds : List ℝ) (air_density blade_radius power_coefficient
    rated_power_watts cut_in_speed cut_out_speed : ℝ) : List ℝ :=
  wind_speeds.map (simulate_sample air_density blade_radius power_coefficient
    rated_power_watts cut_in_speed cut_out_speed)

/-- Embeds `hours_per_year = 8760` (app.py line 280). -/
def hours_per_year : ℝ := 8760

/-- Embeds `daily_energy = (average_power * 24) / 1000` (app.py line 281). -/
def daily_energy (average_power : ℝ) : ℝ := (average_power * 24) / 1000

/-- Embeds `yearly_energy = (average_power * hours_per_year) / 1000000` (app.py line 282). -/
def yearly_energy (average_power : ℝ) : ℝ := (average_power * hours_per_year) / 1000000

/-- Embeds the per-sample `Operating_Status` labelling (app.py line 487):
`np.where((ws >= cut_in_speed) & (ws <= cut_out_speed), 'Operating', 'Idle')`. -/
def operating_status (cut_in_speed cut_out_speed speed : ℝ) : String :=
  if cut_in_speed ≤ speed ∧ speed ≤ cut_out_speed then "Operating" else "Idle"

/-- Indexing through a map with an in-bounds index. -/
lemma getD_map_of_lt (f : ℝ → ℝ) (l : List ℝ) (i : ℕ) (h : i < l.length) :
    (l.map f).getD i 0 = f (l.getD i 0) := by
  induction l generalizing i with
  | nil => exact absurd h (by simp)
  | cons a t ih =>
    cases i with
    | zero => simp
    | succ n =>
      simp only [List.map_cons, List.getD_cons_succ]
      exact ih n (by simpa using h)

/-- The power-curve value is nonnegative for nonnegative wind speed and
positive physical parameters. -/
lemma calculate_power_output_nonneg (wind_speed air_density blade_radius power_coefficient : ℝ)
    (hv : 0 ≤ wind_speed) (hρ : 0 ≤ air_density) (hcp : 0 ≤ power_coefficient) :
    0 ≤ calculate_power_output wind_speed air_density blade_radius power_coefficient := by
  have hπ : (0 : ℝ) ≤ Real.pi * blade_radius ^ 2 := by positivity
  have hv3 : (0 : ℝ) ≤ wind_speed ^ 3 := pow_nonneg hv 3
  simp only [calculate_power_output]
  have h05 : (0 : ℝ) ≤ 0.5 := by norm_num
  exact mul_nonneg (mul_nonneg (mul_nonneg (mul_nonneg h05 hρ) hπ) hcp) hv3

/-- The label is `"Operating"` exactly on the inclusive range. -/
lemma operating_status_operating_iff (cut_in_speed cut_out_speed speed : ℝ) :
    operating_status cut_in_speed cut_out_speed speed = "Operating" ↔
      cut_in_speed ≤ speed ∧ speed ≤ cut_out_speed := by
  unfold operating_status
  by_cases h : cut_in_speed ≤ speed ∧ speed ≤ cut_out_speed
  · rw [if_pos h]
    exact ⟨fun _ => h, fun _ => rfl⟩
  · rw [if_neg h]
    have hne : ("Idle" : String) ≠ "Operating" := by decide
    exact ⟨fun hc => absurd hc hne, fun hc => absurd hc h⟩

/-- The label is `"Idle"` exactly on the strict complement of the range. -/
lemma operating_status_idle_iff (cut_in_speed cut_out_speed speed : ℝ) :
    operating_status cut_in_speed cut_out_speed speed = "Idle" ↔
      (speed < cut_in_speed ∨ speed > cut_out_speed) := by
  unfold operating_status
  by_cases h : cut_in_speed ≤ speed ∧ speed ≤ cut_out_speed
  · rw [if_pos h]
    have hne : ("Operating" : String) ≠ "Idle" := by decide
    have hno : ¬(speed < cut_in_speed ∨ speed > cut_out_speed) := by
      push_neg
      exact ⟨h.1, h.2⟩
    exact ⟨fun hc => absurd hc hne, fun hc => absurd hc hno⟩
  · rw [if_neg h]
    have hor : speed < cut_in_speed ∨ speed > cut_out_speed := by
      rcases not_and_or.mp h with h1 | h1
      · exact Or.inl (lt_of_not_le h1)
      · exact Or.inr (lt_of_not_le h1)
    exact ⟨fun _ => hor, fun _ => rfl⟩

/-- Claim C2 (code behavior at the failing input): `calculate_capacity_factor`
applied to an empty `power_outputs` performs no count check; `np.mean([])`
yields NaN and the function returns that NaN value divided through, never
raising an InvalidArgument error. -/
theorem claim_C2_empty_returns_nan :
    calculate_capacity_factor ([] : List ℝ) 2000000 = NpValue.nan := by
  simp [calculate_capacity_factor, npMean, npDivScalar]

/-- Claim C3: `calculate_power_output` returns exactly
`0.5 * air_density * (pi * blade_radius ^ 2) * power_coefficient * wind_speed ^ 3`
with no clipping or dependence on cut-in/cut-out or rated power, and at
`blade_radius = 45`, `power_coefficient = 0.45`, `air_density = 1.225`,
`wind_speed = 7` the value lies strictly between 601433 W and 601434 W
(the spec rounds this to about 601,480 W). -/
theorem claim_C3 :
    (∀ wind_speed air_density blade_radius power_coefficient : ℝ,
      calculate_power_output wind_speed air_density blade_radius power_coefficient =
        0.5 * air_density * (Real.pi * blade_radius ^ 2) * power_coefficient * wind_speed ^ 3) ∧
    601433 < calculate_power_output 7 1.225 45 0.45 ∧
    calculate_power_output 7 1.225 45 0.45 < 601434 := by
  have hval : calculate_power_output 7 1.225 45 0.45 = 191442.234375 * Real.pi := by
    simp only [calculate_power_output]
    ring
  have hlo := Real.pi_gt_d6
  have hhi := Real.pi_lt_d6
  refine ⟨fun v ρ r cp => rfl, ?_, ?_⟩
  · rw [hval]
    nlinarith
  · rw [hval]
    nlinarith

/-- Claim C6: the derived energy figures satisfy
`daily_energy = average_power * 24 / 1000` (kWh) and
`yearly_energy = average_power * 8760 / 1000000` (MWh), with the fixed
constant 8760 hours per year. -/
theorem claim_C6 (average_power : ℝ) :
    daily_energy average_power = average_power * 24 / 1000 ∧
    yearly_energy average_power = average_power * 8760 / 1000000 ∧
    hours_per_year = 8760 := by
  refine ⟨rfl, ?_, rfl⟩
  simp [yearly_energy, hours_per_year]

/-- Claim C7: the exported per-sample label is `"Operating"` iff
`cut_in_speed ≤ speed ≤ cut_out_speed` (inclusive at both boundaries), and
`"Idle"` exactly on the strict complement, mirroring the simulation
runner's strict zeroing condition. -/
theorem claim_C7 (cut_in_speed cut_out_speed speed : ℝ) :
    (operating_status cut_in_speed cut_out_speed speed = "Operating" ↔
      cut_in_speed ≤ speed ∧ speed ≤ cut_out_speed) ∧
    (operating_status cut_in_speed cut_out_speed speed = "Idle" ↔
      (speed < cut_in_speed ∨ speed > cut_out_speed)) :=
  ⟨operating_status_operating_iff cut_in_speed cut_out_speed speed,
   operating_status_idle_iff cut_in_speed cut_out_speed speed⟩

/-- Claim C8: for nonnegative wind speed and positive physical parameters the
power-curve value is nonnegative, and doubling the wind speed multiplies the
returned power by exactly 8. -/
theorem claim_C8 (wind_speed air_density blade_radius power_coefficient : ℝ)
    (hv : 0 ≤ wind_speed) (hr : 0 < blade_radius) (hcp : 0 < power_coefficient)
    (hρ : 0 < air_density) :
    0 ≤ calculate_power_output wind_speed air_density blade_radius power_coefficient ∧
    calculate_power_output (2 * wind_speed) air_density blade_radius power_coefficient =
      8 * calculate_power_output wind_speed air_density blade_radius power_coefficient := by
  constructor
  · exact calculate_power_output_nonneg wind_speed air_density blade_radius power_coefficient
      hv hρ.le hcp.le
  · simp only [calculate_power_output]
    ring

/-- Witness for C8 at `wind_speed = 7`, `air_density = 1.225`,
`blade_radius = 45`, `power_coefficient = 0.45`. -/
theorem claim_C8_witness :
    (0 : ℝ) ≤ 7 ∧ (0 : ℝ) < 45 ∧ (0 : ℝ) < 0.45 ∧ (0 : ℝ) < 1.225 ∧
    (0 ≤ calculate_power_output 7 1.225 45 0.45 ∧
      calculate_power_output (2 * 7) 1.225 45 0.45 =
        8 * calculate_power_output 7 1.225 45 0.45) :=
  ⟨by norm_num, by norm_num, by norm_num, by norm_num,
   claim_C8 7 1.225 45 0.45 (by norm_num) (by norm_num) (by norm_num) (by norm_num)⟩

/-- Claim C9: the preset lookup is total; on the three preset names it
returns the fixed constant records and on every other name it returns the
empty mapping (modelled as `none`). -/
theorem claim_C9 :
    get_preset_parameters "Small (1 MW)" = some ⟨32.0, 0.42, 1000⟩ ∧
    get_preset_parameters "Medium (2 MW)" = some ⟨45.0, 0.45, 2000⟩ ∧
    get_preset_parameters "Large (5 MW)" = some ⟨63.0, 0.48, 5000⟩ ∧
    (∀ preset_name : String, preset_name ≠ "Small (1 MW)" →
      preset_name ≠ "Medium (2 MW)" → preset_name ≠ "Large (5 MW)" →
      get_preset_parameters preset_name = none) := by
  refine ⟨rfl, rfl, rfl, ?_⟩
  intro preset_name h1 h2 h3
  simp [get_preset_parameters, h1, h2, h3]

/-- Witness for C9 at the non-preset name `"Custom"`. -/
theorem claim_C9_witness : get_preset_parameters "Custom" = none :=
  claim_C9.2.2.2 "Custom" (by decide) (by decide) (by decide)

/-- Claim C1: with `cut_in_speed < cut_out_speed` and `0 < rated_power`, the
simulation output at index `i` is 0 exactly when the speed is strictly below
cut-in or strictly above cut-out, otherwise it is the power-curve value
clamped by `min` to `rated_power`; in particular an in-range speed whose
theoretical power exceeds `rated_power` yields exactly `rated_power` and
never 0. -/
theorem claim_C1 (wind_speeds : List ℝ)
    (air_density blade_radius power_coefficient rated_power cut_in_speed cut_out_speed : ℝ)
    (hlim : cut_in_speed < cut_out_speed) (hrp : 0 < rated_power)
    (i : ℕ) (hi : i < wind_speeds.length) :
    (wind_speeds.getD i 0 < cut_in_speed ∨ wind_speeds.getD i 0 > cut_out_speed →
      (run_simulation wind_speeds air_density blade_radius power_coefficient rated_power
        cut_in_speed cut_out_speed).getD i 0 = 0) ∧
    (¬(wind_speeds.getD i 0 < cut_in_speed ∨ wind_speeds.getD i 0 > cut_out_speed) →
      (run_simulation wind_speeds air_density blade_radius power_coefficient rated_power
        cut_in_speed cut_out_speed).getD i 0 =
        min (calculate_power_output (wind_speeds.getD i 0) air_density blade_radius
          power_coefficient) rated_power) ∧
    (¬(wind_speeds.getD i 0 < cut_in_speed ∨ wind_speeds.getD i 0 > cut_out_speed) →
      rated_power < calculate_power_output (wind_speeds.getD i 0) air_density blade_radius
        power_coefficient →
      (run_simulation wind_speeds air_density blade_radius power_coefficient rated_power
        cut_in_speed cut_out_speed).getD i 0 = rated_power ∧
      (run_simulation wind_speeds air_density blade_radius power_coefficient rated_power
        cut_in_speed cut_out_speed).getD i 0 ≠ 0) := by
  have hkey : (run_simulation wind_speeds air_density blade_radius power_coefficient rated_power
      cut_in_speed cut_out_speed).getD i 0 =
      simulate_sample air_density blade_radius power_coefficient rated_power cut_in_speed
        cut_out_speed (wind_speeds.getD i 0) := by
    simp only [run_simulation]
    exact getD_map_of_lt _ _ _ hi
  refine ⟨fun h => ?_, fun h => ?_, fun h hpow => ?_⟩
  · rw [hkey]
    simp only [simulate_sample]
    rw [if_pos h]
  · rw [hkey]
    simp only [simulate_sample]
    rw [if_neg h]
  · have hmin : min (calculate_power_output (wind_speeds.getD i 0) air_density blade_radius
        power_coefficient) rated_power = rated_power := min_eq_right hpow.le
    constructor
    · rw [hkey]
      simp only [simulate_sample]
      rw [if_neg h, hmin]
    · rw [hkey]
      simp only [simulate_sample]
      rw [if_neg h, hmin]
      exact ne_of_gt hrp

/-- Witness for C1 at `wind_speeds = [30]` (above cut-out 25, so the zeroing
branch applies) with the Medium preset parameters. -/
theorem claim_C1_witness :
    (run_simulation [(30 : ℝ)] 1.225 45 0.45 2000000 3 25).getD 0 0 = 0 :=
  (claim_C1 [(30 : ℝ)] 1.225 45 0.45 2000000 3 25 (by norm_num) (by norm_num) 0
      (by simp)).1
    (Or.inr (by norm_num))

/-- Claim C4: on a nonempty `power_outputs` with `rated_power > 0`, the
capacity factor is the arithmetic mean divided by `rated_power`, and it lies
in `[0, 1]` whenever every output lies in `[0, rated_power]`. -/
theorem claim_C4 (power_outputs : List ℝ) (rated_power : ℝ)
    (hne : power_outputs ≠ []) (hrp : 0 < rated_power) :
    calculate_capacity_factor power_outputs rated_power =
      NpValue.val (power_outputs.sum / (power_outputs.length : ℝ) / rated_power) ∧
    ((∀ x ∈ power_outputs, 0 ≤ x ∧ x ≤ rated_power) →
      0 ≤ power_outputs.sum / (power_outputs.length : ℝ) / rated_power ∧
      power_outputs.sum / (power_outputs.length : ℝ) / rated_power ≤ 1) := by
  have hlen : power_outputs.length ≠ 0 := fun h => hne (List.length_eq_zero.mp h)
  have hn : (0 : ℝ) < (power_outputs.length : ℝ) := by
    exact_mod_cast Nat.pos_of_ne_zero hlen
  constructor
  · simp only [calculate_capacity_factor, npMean, npDivScalar]
    rw [if_neg hlen]
  · intro hall
    have hsum0 : 0 ≤ power_outputs.sum := List.sum_nonneg fun x hx => (hall x hx).1
    have hsum1 : power_outputs.sum ≤ (power_outputs.length : ℝ) * rated_power := by
      have h := List.sum_le_card_nsmul power_outputs rated_power fun x hx => (hall x hx).2
      simpa [nsmul_eq_mul] using h
    constructor
    · exact div_nonneg (div_nonneg hsum0 hn.le) hrp.le
    · rw [div_le_one hrp, div_le_iff₀ hn]
      linarith

/-- Witness for C4 at `power_outputs = [0, 1000]`, `rated_power = 2000`. -/
theorem claim_C4_witness :
    calculate_capacity_factor [(0 : ℝ), 1000] 2000 =
      NpValue.val (([(0 : ℝ), 1000].sum) / (([(0 : ℝ), 1000].length : ℝ)) / 2000) ∧
    (0 ≤ ([(0 : ℝ), 1000].sum) / (([(0 : ℝ), 1000].length : ℝ)) / 2000 ∧
      ([(0 : ℝ), 1000].sum) / (([(0 : ℝ), 1000].length : ℝ)) / 2000 ≤ 1) := by
  have h := claim_C4 [(0 : ℝ), 1000] 2000 (by simp) (by norm_num)
  refine ⟨h.1, h.2 ?_⟩
  intro x hx
  simp only [List.mem_cons, List.mem_singleton, List.not_mem_nil, or_false] at hx
  rcases hx with rfl | rfl <;> norm_num

/-- Claim C5: for nonnegative wind speeds and positive parameters the
simulation output has the same length as the input, is the element-wise
image of the per-sample transform in order, and every output value lies in
`[0, rated_power]`. -/
theorem claim_C5 (wind_speeds : List ℝ)
    (air_density blade_radius power_coefficient rated_power cut_in_speed cut_out_speed : ℝ)
    (hws : ∀ s ∈ wind_speeds, 0 ≤ s) (hρ : 0 < air_density) (hr : 0 < blade_radius)
    (hcp : 0 < power_coefficient) (hrp : 0 < rated_power) :
    (run_simulation wind_speeds air_density blade_radius power_coefficient rated_power
      cut_in_speed cut_out_speed).length = wind_speeds.length ∧
    (∀ i, i < wind_speeds.length →
      (run_simulation wind_speeds air_density blade_radius power_coefficient rated_power
        cut_in_speed cut_out_speed).getD i 0 =
        simulate_sample air_density blade_radius power_coefficient rated_power cut_in_speed
          cut_out_speed (wind_speeds.getD i 0)) ∧
    (∀ x ∈ run_simulation wind_speeds air_density blade_radius power_coefficient rated_power
      cut_in_speed cut_out_speed, 0 ≤ x ∧ x ≤ rated_power) := by
  refine ⟨by simp [run_simulation], fun i hi => ?_, fun x hx => ?_⟩
  · simp only [run_simulation]
    exact getD_map_of_lt _ _ _ hi
  · simp only [run_simulation, List.mem_map] at hx
    obtain ⟨s, hs, rfl⟩ := hx
    simp only [simulate_sample]
    by_cases hcond : s < cut_in_speed ∨ s > cut_out_speed
    · rw [if_pos hcond]
      exact ⟨le_refl 0, hrp.le⟩
    · rw [if_neg hcond]
      constructor
      · exact le_min (calculate_power_output_nonneg s air_density blade_radius
          power_coefficient (hws s hs) hρ.le hcp.le) hrp.le
      · exact min_le_right _ _

/-- Witness for C5 at `wind_speeds = [7]` with the Medium preset parameters. -/
theorem claim_C5_witness :
    (run_simulation [(7 : ℝ)] 1.225 45 0.45 2000000 3 25).length = 1 ∧
    (0 ≤ simulate_sample 1.225 45 0.45 2000000 3 25 7 ∧
      simulate_sample 1.225 45 0.45 2000000 3 25 7 ≤ 2000000) := by
  have h := claim_C5 [(7 : ℝ)] 1.225 45 0.45 2000000 3 25
    (fun s hs => by rw [List.mem_singleton] at hs; rw [hs]; norm_num)
    (by norm_num) (by norm_num) (by norm_num) (by norm_num)
  refine ⟨h.1, h.2.2 (simulate_sample 1.225 45 0.45 2000000 3 25 7) ?_⟩
  simp only [run_simulation]
  exact List.mem_map.mpr ⟨7, List.mem_singleton.mpr rfl, rfl⟩

/-- Claim C10: any exported sample labelled `"Idle"` has power output exactly
0, since the inclusive-boundary idle condition implies the strict zeroing
condition of the simulation runner. -/
theorem claim_C10 (wind_speeds : List ℝ)
    (air_density blade_radius power_coefficient rated_power cut_in_speed cut_out_speed : ℝ)
    (i : ℕ) (hi : i < wind_speeds.length)
    (hidle : operating_status cut_in_speed cut_out_speed (wind_speeds.getD i 0) = "Idle") :
    (run_simulation wind_speeds air_density blade_radius power_coefficient rated_power
      cut_in_speed cut_out_speed).getD i 0 = 0 := by
  have hor := (operating_status_idle_iff cut_in_speed cut_out_speed
    (wind_speeds.getD i 0)).mp hidle
  simp only [run_simulation]
  rw [getD_map_of_lt _ _ _ hi]
  simp only [simulate_sample]
  rw [if_pos hor]

/-- Witness for C10 at `wind_speeds = [30]`: the sample is labelled Idle and
its simulated power is 0. -/
theorem claim_C10_witness :
    operating_status 3 25 (([(30 : ℝ)]).getD 0 0) = "Idle" ∧
    (run_simulation [(30 : ℝ)] 1.225 45 0.45 2000000 3 25).getD 0 0 = 0 := by
  have hidle : operating_status 3 25 (([(30 : ℝ)]).getD 0 0) = "Idle" := by
    rw [operating_status, if_neg]
    norm_num
  exact ⟨hidle, claim_C10 [(30 : ℝ)] 1.225 45 0.45 2000000 3 25 0 (by simp) hidle⟩

end

end WindTurbine
